import Mathlib

/-!
Shallow embedding of the `panic-message` crate (`src/lib.rs`).

The crate extracts a textual message from an opaque panic payload.  A payload
is a `dyn Any` value whose concrete runtime type is unknown at the call site
and is recovered through `downcast_ref` attempts.  Following the spec's own
design note for targets without builtin runtime type identification, the
opaque payload is modelled as a tagged variant capturing the runtime shapes
relevant to the crate: a `&'static str`, a `String`, an integer, a
`Box<dyn Any + Send>` (a payload container can itself be coerced to
`&dyn Any`, which is exactly the hazard the crate defends against), and a
catch-all for every other runtime type.  Each `downcast_ref::<T>` call in the
source becomes a function that succeeds exactly on the constructor whose tag
matches `T`.
-/

/-- Runtime shapes of a value behind a `&dyn Any` reference, as a tagged
variant.  `vstr` is a `&'static str`, `vstring` a `String`, `vint` an integer
(the spec's example of an unrecognized payload), `vbox` a
`Box<dyn Any + Send>` value itself coerced to `dyn Any`, and `vother` any
other runtime type, indexed by an arbitrary tag. -/
inductive AnyValue : Type
  | vstr (s : String)
  | vstring (s : String)
  | vint (n : Int)
  | vbox (inner : AnyValue)
  | vother (tag : Nat)
  deriving DecidableEq

/-- Embedding of `payload.downcast_ref::<&'static str>()`: succeeds iff the
runtime type of the value is `&'static str`, yielding the borrowed text. -/
def downcastStaticStr : AnyValue → Option String
  | AnyValue.vstr s => some s
  | _ => none

/-- Embedding of `payload.downcast_ref::<String>()`: succeeds iff the runtime
type of the value is `String`, yielding a view of its buffer
(`msg.as_str()`). -/
def downcastString : AnyValue → Option String
  | AnyValue.vstring s => some s
  | _ => none

/-- Embedding of a `downcast_ref::<Box<dyn Any + Send>>()` attempt: succeeds
iff the runtime type of the value is the payload container itself, yielding
the contained value. -/
def downcastBoxAny : AnyValue → Option AnyValue
  | AnyValue.vbox inner => some inner
  | _ => none

/-- A `Box<dyn Any + Send>` as returned by `std::panic::catch_unwind`: an
owning container around one opaque value. -/
structure BoxAnySend : Type where
  value : AnyValue
  deriving DecidableEq

/-- Embedding of `payload.as_ref()` on a `&Box<dyn Any + Send>`: the reference
to the contained `dyn Any` value (one level of unwrap, performed statically by
the source). -/
def boxAsRef (b : BoxAnySend) : AnyValue := b.value

/-- Embedding of the coercion `&Box<dyn Any + Send> → &dyn Any` that the
crate's documentation warns about: the container presents itself as an opaque
value whose runtime type is `Box<dyn Any + Send>`. -/
def boxAsAny (b : BoxAnySend) : AnyValue := AnyValue.vbox b.value

/-- A `std::panic::PanicInfo` as delivered to a `std::panic::set_hook`
callback; the crate consumes only its `payload()` accessor, which hands out
the already-bare `&dyn Any` payload. -/
structure PanicInfo : Type where
  payload : AnyValue
  deriving DecidableEq

namespace imp

/-- Embedding of `imp::get_panic_message` (src/lib.rs lines 129-139): try the
`&'static str` downcast first, then the `String` downcast, otherwise
`None`. -/
def get_panic_message (payload : AnyValue) : Option String :=
  match downcastStaticStr payload with
  | some msg => some msg
  | none =>
    match downcastString payload with
    | some msg => some msg
    | none => none

end imp

/-- Embedding of `panic_message` (src/lib.rs lines 94-99): unwrap the box with
`as_ref`, run the extractor, and substitute the placeholder on `None`
(`unwrap_or`). -/
def panic_message (payload : BoxAnySend) : String :=
  (imp.get_panic_message (boxAsRef payload)).getD "Box<dyn Any>"

/-- Embedding of `get_panic_message` (src/lib.rs lines 104-106): unwrap the
box with `as_ref` and run the extractor. -/
def get_panic_message (payload : BoxAnySend) : Option String :=
  imp.get_panic_message (boxAsRef payload)

/-- Embedding of `panic_info_message` (src/lib.rs lines 111-116): run the
extractor on `panic_info.payload()` and substitute the placeholder on
`None`. -/
def panic_info_message (panic_info : PanicInfo) : String :=
  (imp.get_panic_message panic_info.payload).getD "Box<dyn Any>"

/-- Embedding of `get_panic_info_message` (src/lib.rs lines 121-123): run the
extractor on `panic_info.payload()`. -/
def get_panic_info_message (panic_info : PanicInfo) : Option String :=
  imp.get_panic_message panic_info.payload

/-- Modelled from the spec: the Payload Normalizer of spec section 4.1.  The
source has no runtime normalizer function — the one-level unwrap happens
statically through `payload.as_ref()` on the `&Box<dyn Any + Send>` parameter
— so the spec's description is embedded directly: attempt one downcast
against the container shape; on a match replace the working reference with
the contained reference, otherwise pass the reference through unchanged. -/
def normalizePayload (v : AnyValue) : AnyValue :=
  match downcastBoxAny v with
  | some inner => inner
  | none => v

/-- Whether the runtime type of a value is one of the two textual shapes the
extractor recognizes (`&'static str` or `String`). -/
def isTextShape : AnyValue → Bool
  | AnyValue.vstr _ => true
  | AnyValue.vstring _ => true
  | _ => false

/-- Whether a value is a container whose contained value is itself a
container (nested one level deeper than the normalizer unwraps). -/
def isDoubleBox : AnyValue → Bool
  | AnyValue.vbox (AnyValue.vbox _) => true
  | _ => false

/-- A fault the code could raise (a panic inside the extractor).  The source
never raises one; the instrumented semantics below makes that checkable. -/
inductive Fault : Type
  | panicked (msg : String)
  deriving DecidableEq

namespace imp

/-- Fault-instrumented embedding of `imp::get_panic_message`: each operation
the source performs is lifted into `Except Fault`.  Every operation in the
source body is infallible — `downcast_ref` misses return `None` rather than
faulting, and each match arm merely rebinds a reference — so every step is a
`pure`. -/
def get_panic_messageE (payload : AnyValue) : Except Fault (Option String) :=
  match downcastStaticStr payload with
  | some msg => pure (some msg)
  | none =>
    match downcastString payload with
    | some msg => pure (some msg)
    | none => pure none

end imp

/-- Fault-instrumented embedding of `panic_message`. -/
def panic_messageE (payload : BoxAnySend) : Except Fault String := do
  let r ← imp.get_panic_messageE (boxAsRef payload)
  pure (r.getD "Box<dyn Any>")

/-- Fault-instrumented embedding of `get_panic_message`. -/
def get_panic_messageE (payload : BoxAnySend) : Except Fault (Option String) :=
  imp.get_panic_messageE (boxAsRef payload)

/-- Fault-instrumented embedding of `panic_info_message`. -/
def panic_info_messageE (panic_info : PanicInfo) : Except Fault String := do
  let r ← imp.get_panic_messageE panic_info.payload
  pure (r.getD "Box<dyn Any>")

/-- Fault-instrumented embedding of `get_panic_info_message`. -/
def get_panic_info_messageE (panic_info : PanicInfo) : Except Fault (Option String) :=
  imp.get_panic_messageE panic_info.payload

/-- Big-step relational semantics of the extractor body, one constructor per
match arm of `imp::get_panic_message`: the `&'static str` arm, the `String`
arm, and the fall-through arm for every other runtime type. -/
inductive ExtractR : AnyValue → Option String → Prop
  | foundStatic (s : String) : ExtractR (AnyValue.vstr s) (some s)
  | foundOwned (s : String) : ExtractR (AnyValue.vstring s) (some s)
  | noMatch (v : AnyValue) : isTextShape v = false → ExtractR v none

/-- Relational semantics of `panic_message`: some extractor run on the
unwrapped payload produced `o`, and the result substitutes the placeholder
when `o` is absent. -/
def PanicMessageR (payload : BoxAnySend) (result : String) : Prop :=
  ∃ o, ExtractR (boxAsRef payload) o ∧ result = o.getD "Box<dyn Any>"

/-- Relational semantics of `get_panic_message`. -/
def GetPanicMessageR (payload : BoxAnySend) (result : Option String) : Prop :=
  ExtractR (boxAsRef payload) result

/-- Relational semantics of `panic_info_message`. -/
def PanicInfoMessageR (panic_info : PanicInfo) (result : String) : Prop :=
  ∃ o, ExtractR panic_info.payload o ∧ result = o.getD "Box<dyn Any>"

/-- Relational semantics of `get_panic_info_message`. -/
def GetPanicInfoMessageR (panic_info : PanicInfo) (result : Option String) : Prop :=
  ExtractR panic_info.payload result

/-- Alternative extractor that attempts the `String` downcast before the
`&'static str` downcast, the reordering claim C9 compares against
`imp.get_panic_message`. -/
def get_panic_message_string_first (payload : AnyValue) : Option String :=
  match downcastString payload with
  | some msg => some msg
  | none =>
    match downcastStaticStr payload with
    | some msg => some msg
    | none => none

/-- The extractor returns `none` exactly on values outside the two textual
shapes. -/
theorem extract_eq_none_of_not_text (v : AnyValue) (h : isTextShape v = false) :
    imp.get_panic_message v = none := by
  cases v <;> simp_all [imp.get_panic_message, downcastStaticStr, downcastString, isTextShape]

/-- The functional extractor realizes the relational semantics. -/
theorem extractR_of_fn (v : AnyValue) : ExtractR v (imp.get_panic_message v) := by
  cases v with
  | vstr s => exact ExtractR.foundStatic s
  | vstring s => exact ExtractR.foundOwned s
  | vint n => exact ExtractR.noMatch _ rfl
  | vbox inner => exact ExtractR.noMatch _ rfl
  | vother tag => exact ExtractR.noMatch _ rfl

/-- The relational semantics of the extractor is deterministic. -/
theorem extractR_det (v : AnyValue) (r₁ r₂ : Option String)
    (h₁ : ExtractR v r₁) (h₂ : ExtractR v r₂) : r₁ = r₂ := by
  cases h₁ <;> cases h₂ <;> simp_all [isTextShape]

/-- C1: `imp::get_panic_message` returns a present result iff the payload's
runtime type is `&'static str` or `String`; on a `&'static str` it returns
that borrowed text, on a `String` a view of its buffer, and the first
(`&'static str`) downcast has priority whenever it succeeds; every other
runtime type yields `none`. -/
theorem c1_extractor_closed_two_shapes (v : AnyValue) :
    ((imp.get_panic_message v).isSome ↔
      ((∃ s, v = AnyValue.vstr s) ∨ (∃ s, v = AnyValue.vstring s)))
    ∧ (∀ s, v = AnyValue.vstr s → imp.get_panic_message v = some s)
    ∧ (∀ s, v = AnyValue.vstring s → imp.get_panic_message v = some s)
    ∧ (∀ s, downcastStaticStr v = some s → imp.get_panic_message v = some s) := by
  cases v <;> simp [imp.get_panic_message, downcastStaticStr, downcastString]

/-- Witness for C1 at the concrete payload `String::from("gus")`. -/
theorem c1_witness : imp.get_panic_message (AnyValue.vstring "gus") = some "gus" :=
  (c1_extractor_closed_two_shapes (AnyValue.vstring "gus")).2.2.1 "gus" rfl

/-- C2: each total entry point equals its partial counterpart with the
placeholder substituted on absence. -/
theorem c2_total_is_partial_with_default :
    (∀ p : BoxAnySend, panic_message p = (get_panic_message p).getD "Box<dyn Any>")
    ∧ (∀ pi : PanicInfo,
        panic_info_message pi = (get_panic_info_message pi).getD "Box<dyn Any>") :=
  ⟨fun _ => rfl, fun _ => rfl⟩

/-- Witness for C2 at concrete inputs: an integer payload and a report with a
static-text payload. -/
theorem c2_witness :
    panic_message (BoxAnySend.mk (AnyValue.vint 1)) =
      (get_panic_message (BoxAnySend.mk (AnyValue.vint 1))).getD "Box<dyn Any>"
    ∧ panic_info_message (PanicInfo.mk (AnyValue.vstr "gus")) =
      (get_panic_info_message (PanicInfo.mk (AnyValue.vstr "gus"))).getD "Box<dyn Any>" :=
  ⟨c2_total_is_partial_with_default.1 (BoxAnySend.mk (AnyValue.vint 1)),
   c2_total_is_partial_with_default.2 (PanicInfo.mk (AnyValue.vstr "gus"))⟩

/-- C3: on a payload of any unrecognized runtime type, the partial entry
points return `none` and the total entry points return exactly the
placeholder string. -/
theorem c3_unrecognized_absent_and_placeholder :
    (∀ p : BoxAnySend, isTextShape (boxAsRef p) = false →
      get_panic_message p = none ∧ panic_message p = "Box<dyn Any>")
    ∧ (∀ pi : PanicInfo, isTextShape pi.payload = false →
      get_panic_info_message pi = none ∧ panic_info_message pi = "Box<dyn Any>") := by
  constructor
  · intro p h
    have hn := extract_eq_none_of_not_text (boxAsRef p) h
    exact ⟨hn, by simp [panic_message, hn]⟩
  · intro pi h
    have hn := extract_eq_none_of_not_text pi.payload h
    exact ⟨hn, by simp [panic_info_message, hn]⟩

/-- Witness for C3 at the plain integer payload `1`. -/
theorem c3_witness :
    get_panic_message (BoxAnySend.mk (AnyValue.vint 1)) = none
    ∧ panic_message (BoxAnySend.mk (AnyValue.vint 1)) = "Box<dyn Any>" :=
  c3_unrecognized_absent_and_placeholder.1 (BoxAnySend.mk (AnyValue.vint 1)) rfl

/-- C4: the payload-direct path performs a one-level unwrap: the entry points
applied to the container wrapping static text `"gus"` yield `"gus"`
(total and partial), the extractor applied to the already-unwrapped contained
value also yields `"gus"` unchanged; the spec-modelled normalizer applied to
the container coerced to an opaque value agrees with the source's
`as_ref` unwrap, and applying the normalization step twice gives the same
result as applying it once, both in this concrete scenario and for every
payload that is not a doubly nested container. -/
theorem c4_one_level_unwrap_idempotent :
    panic_message (BoxAnySend.mk (AnyValue.vstr "gus")) = "gus"
    ∧ get_panic_message (BoxAnySend.mk (AnyValue.vstr "gus")) = some "gus"
    ∧ imp.get_panic_message (AnyValue.vstr "gus") = some "gus"
    ∧ (∀ b : BoxAnySend, normalizePayload (boxAsAny b) = boxAsRef b)
    ∧ normalizePayload (normalizePayload (AnyValue.vbox (AnyValue.vstr "gus"))) =
        normalizePayload (AnyValue.vbox (AnyValue.vstr "gus"))
    ∧ normalizePayload (normalizePayload (AnyValue.vstr "gus")) =
        normalizePayload (AnyValue.vstr "gus")
    ∧ (∀ v : AnyValue, isDoubleBox v = false →
        normalizePayload (normalizePayload v) = normalizePayload v) := by
  refine ⟨rfl, rfl, rfl, fun _ => rfl, rfl, rfl, ?_⟩
  intro v h
  cases v with
  | vbox inner =>
    cases inner <;> simp_all [normalizePayload, downcastBoxAny, isDoubleBox]
  | vstr s => rfl
  | vstring s => rfl
  | vint n => rfl
  | vother tag => rfl

/-- Witness for C4's hypotheses at the concrete one-level container of
`"gus"`. -/
theorem c4_witness :
    isDoubleBox (AnyValue.vbox (AnyValue.vstr "gus")) = false
    ∧ normalizePayload (normalizePayload (AnyValue.vbox (AnyValue.vstr "gus"))) =
        normalizePayload (AnyValue.vbox (AnyValue.vstr "gus")) :=
  ⟨rfl, c4_one_level_unwrap_idempotent.2.2.2.2.2.2
    (AnyValue.vbox (AnyValue.vstr "gus")) rfl⟩

/-- C5: the report-path entry points apply the extractor directly to the
payload accessor's output, with nothing in between. -/
theorem c5_report_path_extractor_on_accessor :
    (∀ pi : PanicInfo, get_panic_info_message pi = imp.get_panic_message pi.payload)
    ∧ (∀ pi : PanicInfo,
        panic_info_message pi = (imp.get_panic_message pi.payload).getD "Box<dyn Any>") :=
  ⟨fun _ => rfl, fun _ => rfl⟩

/-- Witness for C5 at a concrete report carrying an owned `"gus"`. -/
theorem c5_witness :
    get_panic_info_message (PanicInfo.mk (AnyValue.vstring "gus")) =
      imp.get_panic_message (AnyValue.vstring "gus") :=
  c5_report_path_extractor_on_accessor.1 (PanicInfo.mk (AnyValue.vstring "gus"))

/-- C6: a payload carrying static text `"gus"`, and a payload carrying an
owned `String` built from `"gus"`, both yield `"gus"` from the total entry
points and `some "gus"` from the partial ones, on the payload path and the
report path alike. -/
theorem c6_gus_both_shapes :
    panic_message (BoxAnySend.mk (AnyValue.vstr "gus")) = "gus"
    ∧ get_panic_message (BoxAnySend.mk (AnyValue.vstr "gus")) = some "gus"
    ∧ panic_message (BoxAnySend.mk (AnyValue.vstring "gus")) = "gus"
    ∧ get_panic_message (BoxAnySend.mk (AnyValue.vstring "gus")) = some "gus"
    ∧ panic_info_message (PanicInfo.mk (AnyValue.vstr "gus")) = "gus"
    ∧ get_panic_info_message (PanicInfo.mk (AnyValue.vstr "gus")) = some "gus"
    ∧ panic_info_message (PanicInfo.mk (AnyValue.vstring "gus")) = "gus"
    ∧ get_panic_info_message (PanicInfo.mk (AnyValue.vstring "gus")) = some "gus" :=
  ⟨rfl, rfl, rfl, rfl, rfl, rfl, rfl, rfl⟩

/-- C7: every entry point is total and never faults: the fault-instrumented
semantics of each entry point returns `Except.ok` of the pure result on every
input, and the relational extractor semantics produces a result for every
payload. -/
theorem c7_total_never_faults :
    (∀ v : AnyValue, imp.get_panic_messageE v = Except.ok (imp.get_panic_message v))
    ∧ (∀ p : BoxAnySend, panic_messageE p = Except.ok (panic_message p))
    ∧ (∀ p : BoxAnySend, get_panic_messageE p = Except.ok (get_panic_message p))
    ∧ (∀ pi : PanicInfo, panic_info_messageE pi = Except.ok (panic_info_message pi))
    ∧ (∀ pi : PanicInfo,
        get_panic_info_messageE pi = Except.ok (get_panic_info_message pi))
    ∧ (∀ v : AnyValue, ∃ r : Option String, ExtractR v r) := by
  have himp : ∀ v : AnyValue,
      imp.get_panic_messageE v = Except.ok (imp.get_panic_message v) := by
    intro v
    cases v <;> rfl
  refine ⟨himp, fun p => ?_, fun p => himp (boxAsRef p), fun pi => ?_,
    fun pi => himp pi.payload, fun v => ⟨imp.get_panic_message v, extractR_of_fn v⟩⟩
  · simp [panic_messageE, himp (boxAsRef p), panic_message]
  · simp [panic_info_messageE, himp pi.payload, panic_info_message]

/-- Witness for C7 at a concrete integer payload. -/
theorem c7_witness :
    panic_messageE (BoxAnySend.mk (AnyValue.vint 1)) =
      Except.ok (panic_message (BoxAnySend.mk (AnyValue.vint 1))) :=
  c7_total_never_faults.2.1 (BoxAnySend.mk (AnyValue.vint 1))

/-- C8: every entry point is deterministic: its relational semantics relates
each input to at most one result, and the pure functions realize those
relations, so two invocations on the same input return the same result. -/
theorem c8_deterministic :
    (∀ (p : BoxAnySend) (r₁ r₂ : String),
      PanicMessageR p r₁ → PanicMessageR p r₂ → r₁ = r₂)
    ∧ (∀ (p : BoxAnySend) (r₁ r₂ : Option String),
      GetPanicMessageR p r₁ → GetPanicMessageR p r₂ → r₁ = r₂)
    ∧ (∀ (pi : PanicInfo) (r₁ r₂ : String),
      PanicInfoMessageR pi r₁ → PanicInfoMessageR pi r₂ → r₁ = r₂)
    ∧ (∀ (pi : PanicInfo) (r₁ r₂ : Option String),
      GetPanicInfoMessageR pi r₁ → GetPanicInfoMessageR pi r₂ → r₁ = r₂)
    ∧ (∀ p : BoxAnySend, PanicMessageR p (panic_message p)
        ∧ GetPanicMessageR p (get_panic_message p))
    ∧ (∀ pi : PanicInfo, PanicInfoMessageR pi (panic_info_message pi)
        ∧ GetPanicInfoMessageR pi (get_panic_info_message pi)) := by
  refine ⟨?_, ?_, ?_, ?_, ?_, ?_⟩
  · rintro p r₁ r₂ ⟨o₁, h₁, rfl⟩ ⟨o₂, h₂, rfl⟩
    rw [extractR_det (boxAsRef p) o₁ o₂ h₁ h₂]
  · intro p r₁ r₂ h₁ h₂
    exact extractR_det (boxAsRef p) r₁ r₂ h₁ h₂
  · rintro pi r₁ r₂ ⟨o₁, h₁, rfl⟩ ⟨o₂, h₂, rfl⟩
    rw [extractR_det pi.payload o₁ o₂ h₁ h₂]
  · intro pi r₁ r₂ h₁ h₂
    exact extractR_det pi.payload r₁ r₂ h₁ h₂
  · exact fun p => ⟨⟨imp.get_panic_message (boxAsRef p), extractR_of_fn _, rfl⟩,
      extractR_of_fn _⟩
  · exact fun pi => ⟨⟨imp.get_panic_message pi.payload, extractR_of_fn _, rfl⟩,
      extractR_of_fn _⟩

/-- Witness for C8 at the concrete payload `"gus"`: two runs of
`panic_message` on it both produce `"gus"`, and the determinism theorem
identifies their results. -/
theorem c8_witness :
    PanicMessageR (BoxAnySend.mk (AnyValue.vstr "gus")) "gus"
    ∧ ("gus" : String) = "gus" :=
  ⟨⟨some "gus", ExtractR.foundStatic "gus", rfl⟩,
   c8_deterministic.1 (BoxAnySend.mk (AnyValue.vstr "gus")) "gus" "gus"
     ⟨some "gus", ExtractR.foundStatic "gus", rfl⟩
     ⟨some "gus", ExtractR.foundStatic "gus", rfl⟩⟩

/-- C9: the two downcast attempts can never both succeed, and the extractor
that tries the `String` downcast first is extensionally equal to
`imp.get_panic_message`. -/
theorem c9_check_order_unobservable :
    (∀ v : AnyValue, downcastStaticStr v = none ∨ downcastString v = none)
    ∧ (∀ v : AnyValue, get_panic_message_string_first v = imp.get_panic_message v) := by
  constructor <;> intro v <;>
    cases v <;>
      simp [downcastStaticStr, downcastString, get_panic_message_string_first,
        imp.get_panic_message]

/-- Witness for C9 at the concrete static-text payload `"gus"`. -/
theorem c9_witness :
    get_panic_message_string_first (AnyValue.vstr "gus") =
      imp.get_panic_message (AnyValue.vstr "gus") :=
  c9_check_order_unobservable.2 (AnyValue.vstr "gus")

/-- C10: a recognized payload literally equal to the placeholder and an
unrecognized integer payload are indistinguishable through `panic_message`,
which returns `"Box<dyn Any>"` on both, while `get_panic_message`
distinguishes them as `some` versus `none`. -/
theorem c10_placeholder_collision :
    panic_message (BoxAnySend.mk (AnyValue.vstr "Box<dyn Any>")) = "Box<dyn Any>"
    ∧ panic_message (BoxAnySend.mk (AnyValue.vint 1)) = "Box<dyn Any>"
    ∧ get_panic_message (BoxAnySend.mk (AnyValue.vstr "Box<dyn Any>")) =
        some "Box<dyn Any>"
    ∧ get_panic_message (BoxAnySend.mk (AnyValue.vint 1)) = none :=
  ⟨rfl, rfl, rfl, rfl⟩
